import Mathlib

/-!
Verification development for the playback coordination engine of a React
audio player library (AudioPlayerContext provider, standalone WaveformPlayer
instances, volume persistence via localStorage, and the cross-widget
mutual-exclusion broadcast event).

The embedding translates the source operations into pure state-transition
functions.  JavaScript numbers are modelled as either NaN or an exact
rational (`JNum`); IEEE rounding is outside the model, which is adequate
here because every claim is about exact algebraic values and the source
caps every fade step with `Math.min` and sets the final value explicitly.
The HTML media element, localStorage and the window event bus are external
collaborators of the repository; they are modelled by explicit fields of
the state, with the media element position setter clamping into
[0, duration] and the media element volume setter rejecting a NaN
assignment with a TypeError (it takes a WebIDL double) as the HTML media
specification prescribes, and localStorage round-tripping a float through
its canonical decimal string exactly (true for JavaScript doubles).  Callback invocations (onPlay, onPause) and
dispatched broadcast events are recorded in logs so that claims about them
can be stated.
-/

namespace WSP

/-- A JavaScript number as manipulated by the engine: NaN or an exact
rational value. -/
inductive JNum where
  | nan : JNum
  | num : ℚ → JNum
deriving DecidableEq

/-- JavaScript Math.min: NaN if either argument is NaN. -/
def jsMin : JNum → JNum → JNum
  | JNum.num a, JNum.num b => JNum.num (min a b)
  | _, _ => JNum.nan

/-- JavaScript Math.max: NaN if either argument is NaN. -/
def jsMax : JNum → JNum → JNum
  | JNum.num a, JNum.num b => JNum.num (max a b)
  | _, _ => JNum.nan

/-- JavaScript multiplication restricted to the values used here
(NaN propagates). -/
def jsMul : JNum → JNum → JNum
  | JNum.num a, JNum.num b => JNum.num (a * b)
  | _, _ => JNum.nan

/-- JavaScript division restricted to the nonzero divisors used here
(the engine only ever divides by the step count 30; NaN propagates). -/
def jsDiv : JNum → JNum → JNum
  | JNum.num a, JNum.num b => JNum.num (a / b)
  | _, _ => JNum.nan

/-- A value held by the localStorage slot: either the canonical decimal
string of a float (kept as the exact rational it denotes, since the
JavaScript toString / parseFloat pair round-trips doubles exactly) or a
string that does not parse as a float. -/
inductive StoredStr where
  | numStr : ℚ → StoredStr
  | nonNum : StoredStr
deriving DecidableEq

/-- parseFloat on a stored string: the denoted value, or NaN. -/
def parseFloatStored : StoredStr → JNum
  | StoredStr.numStr q => JNum.num q
  | StoredStr.nonNum => JNum.nan

/-- Number.prototype.toString of a volume value, as a stored string.
NaN stringifies to a non-numeric-looking string only in the sense that
parseFloat of the string "NaN" is NaN again. -/
def volToStored : JNum → StoredStr
  | JNum.num q => StoredStr.numStr q
  | JNum.nan => StoredStr.nonNum

/-- A track (the source calls it Song): id, audio URL, optional duration. -/
structure Song where
  id : String
  audioUrl : String
  songDuration : Option ℚ
deriving DecidableEq

/-- The fade interval closure created by fadeInVolume: the captured target
volume, the captured per-step volume increment, the captured step duration
in milliseconds, and the mutable step counter. -/
structure FadeJob where
  target : JNum
  volumeStep : JNum
  stepMs : ℚ
  currentStep : Nat
deriving DecidableEq

/-- Provider configuration (DEFAULT_CONFIG merged with user config). -/
structure Config where
  fadeInEnabled : Bool
  fadeInDuration : ℚ
  persistVolume : Bool
  storageKey : String
  defaultVolume : ℚ

/-- FADE_STEPS = 30 in the source. -/
def FADE_STEPS : Nat := 30

/-- MIN_FADE_IN_VOLUME = 0.1 in the source. -/
def MIN_FADE_IN_VOLUME : ℚ := 1/10

/-- The complete provider state: the React state object, the audio element
owned through audioRef, the fade interval ref, the localStorage contents,
and logs of dispatched broadcasts and invoked lifecycle callbacks. -/
structure PlayerState where
  currentSong : Option Song
  isPlaying : Bool
  currentTime : ℚ
  duration : ℚ
  volume : JNum
  displayVolume : JNum
  isFadingIn : Bool
  audioSrc : String
  audioVolume : JNum
  audioTime : ℚ
  audioDuration : ℚ
  audioPaused : Bool
  fadeTimer : Option FadeJob
  store : String → Option StoredStr
  broadcasts : List String
  onPlayLog : List String
  onPauseCount : Nat

/-- clearFade: clear the fade interval ref. -/
def clearFade (s : PlayerState) : PlayerState :=
  { s with fadeTimer := none }

/-- fadeInVolume(targetVolume): cancel any fade, mark a fade in progress
with displayVolume 0, and install the interval closure capturing the
target, the per-step increment target/FADE_STEPS and the step duration
fadeInDuration/FADE_STEPS. -/
def fadeInVolume (cfg : Config) (target : JNum) (s : PlayerState) : PlayerState :=
  let s1 := { s with fadeTimer := none, isFadingIn := true, displayVolume := JNum.num 0 }
  { s1 with fadeTimer := some { target := target,
                                volumeStep := jsDiv target (JNum.num (FADE_STEPS : ℚ)),
                                stepMs := cfg.fadeInDuration / (FADE_STEPS : ℚ),
                                currentStep := 0 } }

/-- One tick of the fade interval: increment the step counter, move the
element volume and displayVolume to min(volumeStep * step, target), and if
the step counter has reached FADE_STEPS clear the interval, clear
isFadingIn and set displayVolume exactly to the target. -/
def fadeTick (s : PlayerState) : PlayerState :=
  match s.fadeTimer with
  | none => s
  | some job =>
    let step := job.currentStep + 1
    let newVolume := jsMin (jsMul job.volumeStep (JNum.num (step : ℚ))) job.target
    if FADE_STEPS ≤ step then
      { s with audioVolume := newVolume, displayVolume := job.target,
               isFadingIn := false, fadeTimer := none }
    else
      { s with audioVolume := newVolume, displayVolume := newVolume,
               fadeTimer := some { job with currentStep := step } }

/-- Iterated fade ticks. -/
def fadeTicks : Nat → PlayerState → PlayerState
  | 0, s => s
  | k + 1, s => fadeTick (fadeTicks k s)

/-- play(song): clear any fade; if the song differs from the loaded one,
assign the element src and reset currentTime/duration; compute
targetVolume = max(volume, MIN_FADE_IN_VOLUME); zero the element volume if
fading is enabled, else set it to the target; then await the element play
promise.  The `success` argument is the resolution of that promise: on
success the broadcast event is dispatched, the fade is started if enabled
and the onPlay callback is invoked; on rejection (autoplay denial) the
catch block swallows the error and nothing further happens. -/
def play (cfg : Config) (song : Song) (success : Bool) (s : PlayerState) : PlayerState :=
  let s1 := clearFade s
  let s2 := if s1.currentSong.map Song.id ≠ some song.id then
      { s1 with audioSrc := song.audioUrl, currentSong := some song,
                currentTime := 0, duration := song.songDuration.getD 0 }
    else s1
  let target := jsMax s2.volume (JNum.num MIN_FADE_IN_VOLUME)
  let s3 := if cfg.fadeInEnabled then { s2 with audioVolume := JNum.num 0 }
            else { s2 with audioVolume := target }
  if success then
    let s4 := { s3 with audioPaused := false, broadcasts := song.id :: s3.broadcasts }
    let s5 := if cfg.fadeInEnabled then fadeInVolume cfg target s4 else s4
    { s5 with onPlayLog := song.id :: s5.onPlayLog }
  else s3

/-- pause(): clear the fade interval, request the element to pause and
invoke the onPause callback.  No React state field is written. -/
def pause (s : PlayerState) : PlayerState :=
  { s with fadeTimer := none, audioPaused := true, onPauseCount := s.onPauseCount + 1 }

/-- togglePlay(): no-op without a current song; pause when playing;
otherwise resume: zero the element volume if fading is enabled, await the
element play promise and on success dispatch the broadcast and start the
fade (the onPlay callback is not invoked on this path). -/
def togglePlay (cfg : Config) (success : Bool) (s : PlayerState) : PlayerState :=
  match s.currentSong with
  | none => s
  | some song =>
    if s.isPlaying then pause s
    else
      let target := jsMax s.volume (JNum.num MIN_FADE_IN_VOLUME)
      let s1 := if cfg.fadeInEnabled then { s with audioVolume := JNum.num 0 } else s
      if success then
        let s2 := { s1 with audioPaused := false, broadcasts := song.id :: s1.broadcasts }
        if cfg.fadeInEnabled then fadeInVolume cfg target s2 else s2
      else s1

/-- seek(time): set the element position (the media element clamps the
assigned position into [0, its duration]) and synchronously set the state
currentTime to the raw argument. -/
def seek (t : ℚ) (s : PlayerState) : PlayerState :=
  { s with audioTime := max 0 (min t s.audioDuration), currentTime := t }

/-- setVolume(v): clamp through Math.max(0, Math.min(1, v)); if a fade
interval is running, clear it and clear isFadingIn; assign the element
volume; persist the clamped value if enabled; set volume and
displayVolume to the clamped value.  The element volume setter takes a
WebIDL double, so assigning NaN throws a TypeError in a conformant host:
on a NaN clamp result the operation aborts at that assignment — the
persistence write and the final volume/displayVolume state write never
run (the fade-flag clear already did). -/
def setVolume (cfg : Config) (v : JNum) (s : PlayerState) : PlayerState :=
  let clamped := jsMax (JNum.num 0) (jsMin (JNum.num 1) v)
  let s1 := if s.fadeTimer.isSome then { s with fadeTimer := none, isFadingIn := false } else s
  match clamped with
  | JNum.nan => s1
  | JNum.num q =>
    let s2 := { s1 with audioVolume := JNum.num q }
    let s3 := if cfg.persistVolume then
        { s2 with store := fun k =>
            if k = cfg.storageKey then some (volToStored (JNum.num q)) else s2.store k }
      else s2
    { s3 with volume := JNum.num q, displayVolume := JNum.num q }

/-- Whether setVolume(v) throws: the element volume setter (WebIDL
double) rejects a NaN assignment with a TypeError, and the clamp of NaN
is NaN; the exception propagates out of setVolume, which has no
try/catch. -/
def setVolumeThrows (v : JNum) : Bool :=
  match jsMax (JNum.num 0) (jsMin (JNum.num 1) v) with
  | JNum.nan => true
  | JNum.num _ => false

/-- stop(): clear the fade, pause the element, rewind it, release its src
and reset the song-dependent state fields. -/
def stop (s : PlayerState) : PlayerState :=
  { s with fadeTimer := none, audioPaused := true, audioTime := 0, audioSrc := "",
           currentSong := none, isPlaying := false, currentTime := 0,
           duration := 0, isFadingIn := false }

/-- Element play event → handlePlay listener: isPlaying := true. -/
def handlePlayEvt (s : PlayerState) : PlayerState :=
  { s with isPlaying := true }

/-- Element pause event → handlePause listener: isPlaying := false. -/
def handlePauseEvt (s : PlayerState) : PlayerState :=
  { s with isPlaying := false }

/-- Element timeupdate event → handleTimeUpdate listener. -/
def handleTimeUpdateEvt (s : PlayerState) : PlayerState :=
  { s with currentTime := s.audioTime }

/-- Element loadedmetadata event (the element learned its duration d). -/
def handleLoadedMetadataEvt (d : ℚ) (s : PlayerState) : PlayerState :=
  { s with audioDuration := d, duration := d }

/-- Element ended event → handleEnded listener. -/
def handleEndedEvt (s : PlayerState) : PlayerState :=
  { s with isPlaying := false, currentTime := 0, audioPaused := true }

/-- Provider construction: state seeded with the configured default
volume, then the mount effect reads localStorage when persistence is
enabled and adopts the stored value only when it parses to a float
within [0,1]. -/
def initState (cfg : Config) (store0 : String → Option StoredStr) : PlayerState :=
  let base : PlayerState :=
    { currentSong := none, isPlaying := false, currentTime := 0, duration := 0,
      volume := JNum.num cfg.defaultVolume, displayVolume := JNum.num cfg.defaultVolume,
      isFadingIn := false, audioSrc := "", audioVolume := JNum.num 1, audioTime := 0,
      audioDuration := 0, audioPaused := true, fadeTimer := none, store := store0,
      broadcasts := [], onPlayLog := [], onPauseCount := 0 }
  if cfg.persistVolume then
    match store0 cfg.storageKey with
    | some sv =>
      match parseFloatStored sv with
      | JNum.num q =>
        if 0 ≤ q ∧ q ≤ 1 then
          { base with volume := JNum.num q, displayVolume := JNum.num q,
                      audioVolume := JNum.num q }
        else base
      | JNum.nan => base
    | none => base
  else base

/-- A standalone WaveformPlayer instance: it privately owns its own audio
element, keeps a local playing flag, and participates in mutual exclusion
only through the window broadcast event. -/
structure Standalone where
  songId : String
  audioUrl : String
  localIsPlaying : Bool
  laSrc : String
  laPaused : Bool
  laVolume : ℚ
deriving DecidableEq

/-- The broadcast listener of a standalone instance
(handleOtherPlayerPlay): on an event whose detail differs from its own
song id, pause the private element and clear the local playing flag. -/
def deliverEvt (detail : String) (w : Standalone) : Standalone :=
  if detail ≠ w.songId then { w with laPaused := true, localIsPlaying := false } else w

/-- The start half of a standalone play click: load the src if it
changed, request the private element to play (the rejection of the play
promise is swallowed) and set the local playing flag. -/
def startLocal (w : Standalone) : Standalone :=
  let w1 := if w.laSrc ≠ w.audioUrl then { w with laSrc := w.audioUrl } else w
  { w1 with laPaused := false, localIsPlaying := true }

/-- The pause half of a standalone play click. -/
def pauseLocal (w : Standalone) : Standalone :=
  { w with laPaused := true, localIsPlaying := false }

/-- A world of two standalone instances sharing the window event bus and
the (untouched-by-them) localStorage contents. -/
structure World where
  a : Standalone
  b : Standalone
  store : String → Option StoredStr

/-- Play click on instance A: when not playing, dispatch the broadcast
event (delivered synchronously to every subscriber, the originator
skipping itself because the detail equals its own song id) and then start
the private element. -/
def clickA (w : World) : World :=
  if w.a.localIsPlaying then { w with a := pauseLocal w.a }
  else { w with a := startLocal (deliverEvt w.a.songId w.a),
                b := deliverEvt w.a.songId w.b }

/-- Play click on instance B, symmetric to clickA. -/
def clickB (w : World) : World :=
  if w.b.localIsPlaying then { w with b := pauseLocal w.b }
  else { w with b := startLocal (deliverEvt w.b.songId w.b),
                a := deliverEvt w.b.songId w.a }

/-- One step of the provider state machine: a user operation, a fade
interval tick, or an asynchronous event callback from the media element. -/
inductive Step (cfg : Config) : PlayerState → PlayerState → Prop where
  | stepPlay (s : PlayerState) (song : Song) (success : Bool) :
      Step cfg s (play cfg song success s)
  | stepPause (s : PlayerState) : Step cfg s (pause s)
  | stepToggle (s : PlayerState) (success : Bool) :
      Step cfg s (togglePlay cfg success s)
  | stepSeek (s : PlayerState) (t : ℚ) : Step cfg s (seek t s)
  | stepSetVolume (s : PlayerState) (v : JNum) : Step cfg s (setVolume cfg v s)
  | stepStop (s : PlayerState) : Step cfg s (stop s)
  | stepFadeTick (s : PlayerState) : Step cfg s (fadeTick s)
  | stepPlayEvt (s : PlayerState) : Step cfg s (handlePlayEvt s)
  | stepPauseEvt (s : PlayerState) : Step cfg s (handlePauseEvt s)
  | stepTimeEvt (s : PlayerState) : Step cfg s (handleTimeUpdateEvt s)
  | stepMetaEvt (s : PlayerState) (d : ℚ) : Step cfg s (handleLoadedMetadataEvt d s)
  | stepEndEvt (s : PlayerState) : Step cfg s (handleEndedEvt s)

/-- Reachability along provider steps. -/
def Reach (cfg : Config) (s0 s : PlayerState) : Prop :=
  Relation.ReflTransGen (Step cfg) s0 s

/-- The volume is a genuine number at least the fade floor. -/
def VolFloor (s : PlayerState) : Prop :=
  ∃ q : ℚ, s.volume = JNum.num q ∧ MIN_FADE_IN_VOLUME ≤ q

/-- Restricted steps under which the display-volume invariant is
provable: setVolume is only applied to inputs whose clamped value stays
at or above the fade floor, and stop is only invoked while no fade is in
progress or pending. -/
inductive GStep (cfg : Config) : PlayerState → PlayerState → Prop where
  | stepPlay (s : PlayerState) (song : Song) (success : Bool) :
      GStep cfg s (play cfg song success s)
  | stepPause (s : PlayerState) : GStep cfg s (pause s)
  | stepToggle (s : PlayerState) (success : Bool) :
      GStep cfg s (togglePlay cfg success s)
  | stepSeek (s : PlayerState) (t : ℚ) : GStep cfg s (seek t s)
  | stepSetVolume (s : PlayerState) (v : JNum)
      (h : ∃ q : ℚ, jsMax (JNum.num 0) (jsMin (JNum.num 1) v) = JNum.num q ∧
             MIN_FADE_IN_VOLUME ≤ q) :
      GStep cfg s (setVolume cfg v s)
  | stepStop (s : PlayerState) (h1 : s.isFadingIn = false) (h2 : s.fadeTimer = none) :
      GStep cfg s (stop s)
  | stepFadeTick (s : PlayerState) : GStep cfg s (fadeTick s)
  | stepPlayEvt (s : PlayerState) : GStep cfg s (handlePlayEvt s)
  | stepPauseEvt (s : PlayerState) : GStep cfg s (handlePauseEvt s)
  | stepTimeEvt (s : PlayerState) : GStep cfg s (handleTimeUpdateEvt s)
  | stepMetaEvt (s : PlayerState) (d : ℚ) : GStep cfg s (handleLoadedMetadataEvt d s)
  | stepEndEvt (s : PlayerState) : GStep cfg s (handleEndedEvt s)

/-- Reachability along restricted steps. -/
def GReach (cfg : Config) (s0 s : PlayerState) : Prop :=
  Relation.ReflTransGen (GStep cfg) s0 s

lemma fadeTick_of_none (s : PlayerState) (h : s.fadeTimer = none) : fadeTick s = s := by
  simp [fadeTick, h]

lemma fadeTick_of_some (s : PlayerState) (job : FadeJob) (h : s.fadeTimer = some job) :
    fadeTick s =
      if FADE_STEPS ≤ job.currentStep + 1 then
        { s with
            audioVolume :=
              jsMin (jsMul job.volumeStep (JNum.num ((job.currentStep + 1 : Nat) : ℚ))) job.target,
            displayVolume := job.target, isFadingIn := false, fadeTimer := none }
      else
        { s with
            audioVolume :=
              jsMin (jsMul job.volumeStep (JNum.num ((job.currentStep + 1 : Nat) : ℚ))) job.target,
            displayVolume :=
              jsMin (jsMul job.volumeStep (JNum.num ((job.currentStep + 1 : Nat) : ℚ))) job.target,
            fadeTimer := some { job with currentStep := job.currentStep + 1 } } := by
  simp only [fadeTick, h]

lemma fadeTick_volume (s : PlayerState) : (fadeTick s).volume = s.volume := by
  cases h : s.fadeTimer with
  | none => rw [fadeTick_of_none s h]
  | some job => rw [fadeTick_of_some s job h]; split <;> rfl

lemma fadeTick_currentSong (s : PlayerState) : (fadeTick s).currentSong = s.currentSong := by
  cases h : s.fadeTimer with
  | none => rw [fadeTick_of_none s h]
  | some job => rw [fadeTick_of_some s job h]; split <;> rfl

lemma fadeTick_isPlaying (s : PlayerState) : (fadeTick s).isPlaying = s.isPlaying := by
  cases h : s.fadeTimer with
  | none => rw [fadeTick_of_none s h]
  | some job => rw [fadeTick_of_some s job h]; split <;> rfl

lemma fadeTicks_volume (k : Nat) (s : PlayerState) : (fadeTicks k s).volume = s.volume := by
  induction k with
  | zero => rfl
  | succ n ih => rw [fadeTicks, fadeTick_volume, ih]

lemma fadeTicks_currentSong (k : Nat) (s : PlayerState) :
    (fadeTicks k s).currentSong = s.currentSong := by
  induction k with
  | zero => rfl
  | succ n ih => rw [fadeTicks, fadeTick_currentSong, ih]

lemma fadeTicks_isPlaying (k : Nat) (s : PlayerState) :
    (fadeTicks k s).isPlaying = s.isPlaying := by
  induction k with
  | zero => rfl
  | succ n ih => rw [fadeTicks, fadeTick_isPlaying, ih]

/-- Running k fade ticks (1 ≤ k ≤ 30) on a freshly installed fade job with
numeric target t ≥ 0: the display volume follows min(t/30 * k, t), the job
counter follows k while the fade is unfinished, and the 30th tick clears
the timer and the in-progress flag and lands exactly on the target. -/
lemma fadeTicks_run (t d : ℚ) :
    ∀ (k : Nat) (s : PlayerState),
      s.fadeTimer = some ⟨JNum.num t, JNum.num (t / 30), d, 0⟩ →
      1 ≤ k → k ≤ 30 →
        (fadeTicks k s).displayVolume = JNum.num (min (t / 30 * k) t)
        ∧ (k < 30 →
            (fadeTicks k s).fadeTimer = some ⟨JNum.num t, JNum.num (t / 30), d, k⟩
            ∧ (fadeTicks k s).isFadingIn = s.isFadingIn)
        ∧ (k = 30 →
            (fadeTicks k s).fadeTimer = none
            ∧ (fadeTicks k s).isFadingIn = false
            ∧ (fadeTicks k s).displayVolume = JNum.num t) := by
  intro k
  induction k with
  | zero => intro s _ h1 _; exact absurd h1 (by omega)
  | succ n ih =>
    intro s hjob _ h2
    rcases Nat.eq_zero_or_pos n with hn | hn
    · subst hn
      have hstep : fadeTicks 1 s = fadeTick s := by rfl
      rw [hstep, fadeTick_of_some s _ hjob]
      have hlt : ¬ (FADE_STEPS ≤ 0 + 1) := by simp [FADE_STEPS]
      rw [if_neg hlt]
      refine ⟨?_, ?_, ?_⟩
      · simp [jsMin, jsMul]
      · intro _; exact ⟨rfl, rfl⟩
      · intro h; exact absurd h (by omega)
    · have hn30 : n < 30 := by omega
      have hn30' : n ≤ 30 := by omega
      obtain ⟨_, hmid, _⟩ := ih s hjob hn hn30'
      obtain ⟨htimer, hfad⟩ := hmid hn30
      have hstep : fadeTicks (n + 1) s = fadeTick (fadeTicks n s) := by rfl
      rw [hstep, fadeTick_of_some (fadeTicks n s) _ htimer]
      by_cases hfin : n + 1 = 30
      · have hge : FADE_STEPS ≤ n + 1 := by unfold FADE_STEPS; omega
        rw [if_pos hge]
        refine ⟨?_, ?_, ?_⟩
        · have harith : t / 30 * ((n : ℚ) + 1) = t := by
            have : (n : ℚ) + 1 = 30 := by exact_mod_cast congrArg (Nat.cast : Nat → ℚ) hfin
            rw [this]; field_simp
          simp [min_self, harith]
        · intro h; exact absurd h (by omega)
        · intro _; exact ⟨rfl, rfl, rfl⟩
      · have hlt : ¬ (FADE_STEPS ≤ n + 1) := by unfold FADE_STEPS; omega
        rw [if_neg hlt]
        refine ⟨?_, ?_, ?_⟩
        · simp [jsMin, jsMul]
        · intro _; exact ⟨rfl, hfad⟩
        · intro h; exact absurd h hfin

/-- Fields of play when the start succeeds and fading is enabled. -/
lemma play_fields_fade (cfg : Config) (song : Song) (s : PlayerState)
    (hf : cfg.fadeInEnabled = true) :
    (play cfg song true s).volume = s.volume
    ∧ (play cfg song true s).displayVolume = JNum.num 0
    ∧ (play cfg song true s).isFadingIn = true
    ∧ (play cfg song true s).fadeTimer =
        some ⟨jsMax s.volume (JNum.num MIN_FADE_IN_VOLUME),
              jsDiv (jsMax s.volume (JNum.num MIN_FADE_IN_VOLUME)) (JNum.num (FADE_STEPS : ℚ)),
              cfg.fadeInDuration / (FADE_STEPS : ℚ), 0⟩ := by
  simp only [play, clearFade, fadeInVolume, hf, if_true]
  split <;> simp

/-- Fields of play when the start is denied or fading is disabled. -/
lemma play_fields_other (cfg : Config) (song : Song) (success : Bool) (s : PlayerState)
    (h : success = false ∨ cfg.fadeInEnabled = false) :
    (play cfg song success s).volume = s.volume
    ∧ (play cfg song success s).displayVolume = s.displayVolume
    ∧ (play cfg song success s).isFadingIn = s.isFadingIn
    ∧ (play cfg song success s).fadeTimer = none := by
  rcases h with h | h
  · subst h
    simp only [play, clearFade, Bool.false_eq_true, if_false]
    split <;> [skip; skip] <;> split <;> simp
  · simp only [play, clearFade, fadeInVolume, h, Bool.false_eq_true, if_false]
    cases success <;> simp <;> split <;> simp

/-- togglePlay is the identity when no song is loaded. -/
lemma togglePlay_none (cfg : Config) (success : Bool) (s : PlayerState)
    (h : s.currentSong = none) : togglePlay cfg success s = s := by
  simp [togglePlay, h]

/-- togglePlay delegates to pause when playing. -/
lemma togglePlay_pause (cfg : Config) (success : Bool) (s : PlayerState) (song : Song)
    (hs : s.currentSong = some song) (hp : s.isPlaying = true) :
    togglePlay cfg success s = pause s := by
  simp [togglePlay, hs, hp]

/-- Fields of a successful resume with fading enabled. -/
lemma togglePlay_fields_fade (cfg : Config) (s : PlayerState) (song : Song)
    (hs : s.currentSong = some song) (hp : s.isPlaying = false)
    (hf : cfg.fadeInEnabled = true) :
    (togglePlay cfg true s).volume = s.volume
    ∧ (togglePlay cfg true s).displayVolume = JNum.num 0
    ∧ (togglePlay cfg true s).isFadingIn = true
    ∧ (togglePlay cfg true s).fadeTimer =
        some ⟨jsMax s.volume (JNum.num MIN_FADE_IN_VOLUME),
              jsDiv (jsMax s.volume (JNum.num MIN_FADE_IN_VOLUME)) (JNum.num (FADE_STEPS : ℚ)),
              cfg.fadeInDuration / (FADE_STEPS : ℚ), 0⟩ := by
  simp [togglePlay, hs, hp, hf, fadeInVolume]

/-- Fields of a resume that is denied or has fading disabled. -/
lemma togglePlay_fields_other (cfg : Config) (success : Bool) (s : PlayerState) (song : Song)
    (hs : s.currentSong = some song) (hp : s.isPlaying = false)
    (h : success = false ∨ cfg.fadeInEnabled = false) :
    (togglePlay cfg success s).volume = s.volume
    ∧ (togglePlay cfg success s).displayVolume = s.displayVolume
    ∧ (togglePlay cfg success s).isFadingIn = s.isFadingIn
    ∧ (togglePlay cfg success s).fadeTimer = s.fadeTimer := by
  rcases h with h | h
  · subst h
    simp only [togglePlay, hs, hp, Bool.false_eq_true, if_false]
    split <;> simp
  · simp only [togglePlay, hs, hp, h, Bool.false_eq_true, if_false]
    cases success <;> simp

/-- Core fields of setVolume on an input whose clamp is an ordinary
number (the element volume assignment succeeds). -/
lemma setVolume_fields (cfg : Config) (v : JNum) (s : PlayerState) (q : ℚ)
    (hcl : jsMax (JNum.num 0) (jsMin (JNum.num 1) v) = JNum.num q) :
    (setVolume cfg v s).volume = JNum.num q
    ∧ (setVolume cfg v s).displayVolume = JNum.num q
    ∧ (setVolume cfg v s).fadeTimer = none
    ∧ (setVolume cfg v s).isFadingIn = (if s.fadeTimer.isSome then false else s.isFadingIn)
    ∧ (setVolume cfg v s).currentSong = s.currentSong
    ∧ (setVolume cfg v s).isPlaying = s.isPlaying := by
  simp only [setVolume, hcl]
  by_cases h : s.fadeTimer.isSome
  · have hnone : (if s.fadeTimer.isSome then
        { s with fadeTimer := none, isFadingIn := false } else s) =
        { s with fadeTimer := none, isFadingIn := false } := by rw [if_pos h]
    rw [hnone]
    split <;> simp [h]
  · have hid : (if s.fadeTimer.isSome then
        { s with fadeTimer := none, isFadingIn := false } else s) = s := by rw [if_neg h]
    have htn : s.fadeTimer = none := by
      cases hft : s.fadeTimer with
      | none => rfl
      | some job => rw [hft] at h; simp at h
    rw [hid]
    split <;> simp [h, htn]

/-- Fields of setVolume on an input whose clamp is NaN: the element
volume setter throws, aborting before the persistence write and the
volume/displayVolume state write; the fade-flag clear already ran. -/
lemma setVolume_nan_fields (cfg : Config) (v : JNum) (s : PlayerState)
    (hcl : jsMax (JNum.num 0) (jsMin (JNum.num 1) v) = JNum.nan) :
    (setVolume cfg v s).volume = s.volume
    ∧ (setVolume cfg v s).displayVolume = s.displayVolume
    ∧ (setVolume cfg v s).store = s.store
    ∧ (setVolume cfg v s).fadeTimer = none
    ∧ (setVolume cfg v s).isFadingIn = (if s.fadeTimer.isSome then false else s.isFadingIn)
    ∧ setVolumeThrows v = true := by
  have hthrows : setVolumeThrows v = true := by
    simp only [setVolumeThrows, hcl]
  simp only [setVolume, hcl]
  by_cases h : s.fadeTimer.isSome
  · have hnone : (if s.fadeTimer.isSome then
        { s with fadeTimer := none, isFadingIn := false } else s) =
        { s with fadeTimer := none, isFadingIn := false } := by rw [if_pos h]
    rw [hnone]
    simp [h, hthrows]
  · have hid : (if s.fadeTimer.isSome then
        { s with fadeTimer := none, isFadingIn := false } else s) = s := by rw [if_neg h]
    have htn : s.fadeTimer = none := by
      cases hft : s.fadeTimer with
      | none => rfl
      | some job => rw [hft] at h; simp at h
    rw [hid]
    simp [h, htn, hthrows]

/-- The localStorage contents after setVolume with persistence enabled
and a numeric clamp result. -/
lemma setVolume_store (cfg : Config) (v : JNum) (s : PlayerState)
    (hp : cfg.persistVolume = true) (q : ℚ)
    (hcl : jsMax (JNum.num 0) (jsMin (JNum.num 1) v) = JNum.num q) :
    (setVolume cfg v s).store = fun k =>
      if k = cfg.storageKey then some (StoredStr.numStr q) else s.store k := by
  simp only [setVolume, hcl, hp, if_true, volToStored]
  split <;> rfl

/-- The inductive invariant behind the display-volume claim: when no fade
is marked, displayVolume equals volume; the volume is a number at or above
the fade floor; and a pending fade job always belongs to a marked fade and
targets the current volume. -/
def Inv (s : PlayerState) : Prop :=
  (s.isFadingIn = false → s.displayVolume = s.volume)
  ∧ VolFloor s
  ∧ (∀ job : FadeJob, s.fadeTimer = some job → s.isFadingIn = true ∧ job.target = s.volume)

lemma inv_init (cfg : Config) (store0 : String → Option StoredStr)
    (h : VolFloor (initState cfg store0)) : Inv (initState cfg store0) := by
  refine ⟨?_, h, ?_⟩
  · intro _
    unfold initState
    split
    · split
      · split
        · split
          · rfl
          · rfl
        · rfl
      · rfl
    · rfl
  · intro job hjob
    exfalso
    revert hjob
    unfold initState
    split
    · split
      · split
        · split
          · simp
          · simp
        · simp
      · simp
    · simp

lemma inv_preserved (cfg : Config) {s s' : PlayerState}
    (hinv : Inv s) (hstep : GStep cfg s s') : Inv s' := by
  obtain ⟨h1, hvf, h3⟩ := hinv
  obtain ⟨q, hq, hq10⟩ := hvf
  have hmax : jsMax s.volume (JNum.num MIN_FADE_IN_VOLUME) = s.volume := by
    rw [hq]; simp [jsMax]
    exact hq10
  cases hstep with
  | stepPlay song success =>
    by_cases hcase : success = true ∧ cfg.fadeInEnabled = true
    · obtain ⟨hsucc, hf⟩ := hcase
      subst hsucc
      obtain ⟨f1, f2, f3, f4⟩ := play_fields_fade cfg song s hf
      refine ⟨?_, ⟨q, by rw [f1, hq], hq10⟩, ?_⟩
      · intro hc; rw [f3] at hc; exact absurd hc (by simp)
      · intro job hjob
        rw [f4] at hjob
        cases hjob
        exact ⟨f3, by rw [f1, hmax]⟩
    · have hother : success = false ∨ cfg.fadeInEnabled = false := by
        rcases Bool.eq_false_or_eq_true success with h | h
        · right
          rcases Bool.eq_false_or_eq_true cfg.fadeInEnabled with h2 | h2
          · exact absurd ⟨h, h2⟩ hcase
          · exact h2
        · exact Or.inl h
      obtain ⟨f1, f2, f3, f4⟩ := play_fields_other cfg song success s hother
      refine ⟨?_, ⟨q, by rw [f1, hq], hq10⟩, ?_⟩
      · intro hc; rw [f3] at hc; rw [f2, f1]; exact h1 hc
      · intro job hjob; rw [f4] at hjob; cases hjob
  | stepPause =>
    refine ⟨?_, ⟨q, hq, hq10⟩, ?_⟩
    · intro hc; exact h1 hc
    · intro job hjob; cases hjob
  | stepToggle success =>
    cases hsong : s.currentSong with
    | none => rw [togglePlay_none cfg success s hsong]; exact ⟨h1, ⟨q, hq, hq10⟩, h3⟩
    | some song =>
      cases hp : s.isPlaying with
      | true =>
        rw [togglePlay_pause cfg success s song hsong hp]
        refine ⟨?_, ⟨q, hq, hq10⟩, ?_⟩
        · intro hc; exact h1 hc
        · intro job hjob; cases hjob
      | false =>
        by_cases hcase : success = true ∧ cfg.fadeInEnabled = true
        · obtain ⟨hsucc, hf⟩ := hcase
          subst hsucc
          obtain ⟨f1, f2, f3, f4⟩ := togglePlay_fields_fade cfg s song hsong hp hf
          refine ⟨?_, ⟨q, by rw [f1, hq], hq10⟩, ?_⟩
          · intro hc; rw [f3] at hc; exact absurd hc (by simp)
          · intro job hjob
            rw [f4] at hjob
            cases hjob
            exact ⟨f3, by rw [f1, hmax]⟩
        · have hother : success = false ∨ cfg.fadeInEnabled = false := by
            rcases Bool.eq_false_or_eq_true success with h | h
            · right
              rcases Bool.eq_false_or_eq_true cfg.fadeInEnabled with h2 | h2
              · exact absurd ⟨h, h2⟩ hcase
              · exact h2
            · exact Or.inl h
          obtain ⟨f1, f2, f3, f4⟩ := togglePlay_fields_other cfg success s song hsong hp hother
          refine ⟨?_, ⟨q, by rw [f1, hq], hq10⟩, ?_⟩
          · intro hc; rw [f3] at hc; rw [f2, f1]; exact h1 hc
          · intro job hjob
            rw [f4] at hjob
            obtain ⟨hj1, hj2⟩ := h3 job hjob
            exact ⟨by rw [f3, hj1], by rw [f1, hj2]⟩
  | stepSeek t =>
    refine ⟨?_, ⟨q, hq, hq10⟩, ?_⟩
    · intro hc; exact h1 hc
    · intro job hjob; exact h3 job hjob
  | stepSetVolume v hguard =>
    obtain ⟨r, hr, hr10⟩ := hguard
    obtain ⟨f1, f2, f3, f4, _⟩ := setVolume_fields cfg v s r hr
    refine ⟨?_, ⟨r, f1, hr10⟩, ?_⟩
    · intro _; rw [f2, f1]
    · intro job hjob; rw [f3] at hjob; cases hjob
  | stepStop hnf htn =>
    refine ⟨?_, ⟨q, hq, hq10⟩, ?_⟩
    · intro _
      have : s.displayVolume = s.volume := h1 hnf
      simpa [stop] using this
    · intro job hjob; simp [stop] at hjob
  | stepFadeTick =>
    cases hft : s.fadeTimer with
    | none =>
      rw [fadeTick_of_none s hft]
      exact ⟨h1, ⟨q, hq, hq10⟩, h3⟩
    | some job =>
      obtain ⟨hjf, hjt⟩ := h3 job hft
      rw [fadeTick_of_some s job hft]
      split
      · refine ⟨?_, ⟨q, hq, hq10⟩, ?_⟩
        · intro _; simpa using hjt
        · intro job2 hjob2; simp at hjob2
      · refine ⟨?_, ⟨q, hq, hq10⟩, ?_⟩
        · intro hc; simp at hc; rw [hjf] at hc; cases hc
        · intro job2 hjob2
          simp at hjob2
          refine ⟨by simpa using hjf, ?_⟩
          rw [← hjob2]
          simpa using hjt
  | stepPlayEvt =>
    refine ⟨?_, ⟨q, hq, hq10⟩, ?_⟩
    · intro hc; exact h1 hc
    · intro job hjob; exact h3 job hjob
  | stepPauseEvt =>
    refine ⟨?_, ⟨q, hq, hq10⟩, ?_⟩
    · intro hc; exact h1 hc
    · intro job hjob; exact h3 job hjob
  | stepTimeEvt =>
    refine ⟨?_, ⟨q, hq, hq10⟩, ?_⟩
    · intro hc; exact h1 hc
    · intro job hjob; exact h3 job hjob
  | stepMetaEvt d =>
    refine ⟨?_, ⟨q, hq, hq10⟩, ?_⟩
    · intro hc; exact h1 hc
    · intro job hjob; exact h3 job hjob
  | stepEndEvt =>
    refine ⟨?_, ⟨q, hq, hq10⟩, ?_⟩
    · intro hc; exact h1 hc
    · intro job hjob; exact h3 job hjob

lemma inv_reach (cfg : Config) {s0 s : PlayerState}
    (h0 : Inv s0) (hreach : Relation.ReflTransGen (GStep cfg) s0 s) : Inv s := by
  induction hreach with
  | refl => exact h0
  | tail _ hstep ih => exact inv_preserved cfg ih hstep

/-- The DEFAULT_CONFIG of the source. -/
def defaultCfg : Config :=
  { fadeInEnabled := true, fadeInDuration := 3000, persistVolume := true,
    storageKey := "audioPlayerVolume", defaultVolume := 1 }

/-- DEFAULT_CONFIG with the fade disabled. -/
def noFadeCfg : Config :=
  { fadeInEnabled := false, fadeInDuration := 3000, persistVolume := true,
    storageKey := "audioPlayerVolume", defaultVolume := 1 }

/-- An empty localStorage. -/
def emptyStore : String → Option StoredStr := fun _ => none

/-- A concrete track. -/
def songX : Song := { id := "x", audioUrl := "ux", songDuration := some 100 }

/-- Another concrete track with a distinct id. -/
def songY : Song := { id := "y", audioUrl := "uy", songDuration := some 200 }

lemma reach_fadeTicks (cfg : Config) (k : Nat) (s : PlayerState) :
    Reach cfg s (fadeTicks k s) := by
  induction k with
  | zero => exact Relation.ReflTransGen.refl
  | succ n ih => exact Relation.ReflTransGen.tail ih (Step.stepFadeTick _)

/-- A trace refuting claim C1 as stated: set the volume to 0.05, play with
the fade enabled, let the fade complete. -/
def c1Mid : PlayerState :=
  play defaultCfg songX true
    (setVolume defaultCfg (JNum.num (1/20)) (initState defaultCfg emptyStore))

/-- The state of the C1 refutation trace after the fade completes. -/
def c1Final : PlayerState := fadeTicks 30 c1Mid

lemma clamp_small :
    jsMax (JNum.num 0) (jsMin (JNum.num 1) (JNum.num (1/20))) = JNum.num (1/20) := by
  simp [jsMax, jsMin]
  norm_num [min_def, max_def]

lemma c1Mid_volume : c1Mid.volume = JNum.num (1/20) := by
  have h := (play_fields_fade defaultCfg songX
    (setVolume defaultCfg (JNum.num (1/20)) (initState defaultCfg emptyStore)) rfl).1
  have h2 := (setVolume_fields defaultCfg (JNum.num (1/20))
    (initState defaultCfg emptyStore) (1/20) clamp_small).1
  unfold c1Mid
  rw [h, h2]

lemma c1Mid_timer :
    c1Mid.fadeTimer = some ⟨JNum.num (1/10), JNum.num ((1/10) / 30), 100, 0⟩ := by
  have h := (play_fields_fade defaultCfg songX
    (setVolume defaultCfg (JNum.num (1/20)) (initState defaultCfg emptyStore)) rfl).2.2.2
  have h2 := (setVolume_fields defaultCfg (JNum.num (1/20))
    (initState defaultCfg emptyStore) (1/20) clamp_small).1
  unfold c1Mid
  rw [h, h2]
  have hm : jsMax (JNum.num (1/20)) (JNum.num MIN_FADE_IN_VOLUME) = JNum.num (1/10) := by
    simp [jsMax, MIN_FADE_IN_VOLUME]
    norm_num [max_def]
  rw [hm]
  simp [jsDiv, FADE_STEPS, defaultCfg]
  norm_num

/-- Claim C1 is false on the code: after setVolume(0.05) and a completed
fade-in, the state has isFadingIn = false while displayVolume = 0.1 and
volume = 0.05, because the fade target is max(volume, MIN_FADE_IN_VOLUME)
and the final fade step writes the target, not the volume, into
displayVolume. -/
theorem c1_display_volume_cex :
    Reach defaultCfg (initState defaultCfg emptyStore) c1Final
    ∧ c1Final.isFadingIn = false
    ∧ c1Final.volume = JNum.num (1/20)
    ∧ c1Final.displayVolume = JNum.num (1/10)
    ∧ c1Final.displayVolume ≠ c1Final.volume := by
  obtain ⟨_, _, hfin⟩ :=
    fadeTicks_run (1/10) 100 30 c1Mid c1Mid_timer (by norm_num) (le_refl 30)
  obtain ⟨ht, hf, hd⟩ := hfin rfl
  refine ⟨?_, hf, ?_, hd, ?_⟩
  · have r1 : Reach defaultCfg (initState defaultCfg emptyStore) c1Mid :=
      Relation.ReflTransGen.tail
        (Relation.ReflTransGen.single (Step.stepSetVolume _ (JNum.num (1/20))))
        (Step.stepPlay _ songX true)
    exact Relation.ReflTransGen.trans r1 (reach_fadeTicks defaultCfg 30 c1Mid)
  · unfold c1Final
    rw [fadeTicks_volume, c1Mid_volume]
  · unfold c1Final
    rw [hd, fadeTicks_volume, c1Mid_volume]
    intro hcontra
    have : (1/10 : ℚ) = 1/20 := by injection hcontra
    norm_num at this

/-- Claim C1 (amended): the invariant that displayVolume equals volume
whenever isFadingIn is false holds for every state reachable from
construction, provided the initial volume (default or restored) is at
least MIN_FADE_IN_VOLUME, every setVolume input clamps to at least
MIN_FADE_IN_VOLUME, and stop is never invoked while a fade is in progress
or marked. -/
theorem c1_display_volume_inv (cfg : Config) (store0 : String → Option StoredStr)
    (s : PlayerState) (h0 : VolFloor (initState cfg store0))
    (hreach : GReach cfg (initState cfg store0) s)
    (hnf : s.isFadingIn = false) : s.displayVolume = s.volume :=
  (inv_reach cfg (inv_init cfg store0 h0) hreach).1 hnf

/-- Witness for the amended C1 invariant: a concrete one-step trace
(setVolume 0.5 from a fresh default session) satisfying all hypotheses. -/
theorem c1_display_volume_inv_witness :
    VolFloor (initState defaultCfg emptyStore)
    ∧ (setVolume defaultCfg (JNum.num (1/2)) (initState defaultCfg emptyStore)).isFadingIn
        = false
    ∧ (setVolume defaultCfg (JNum.num (1/2)) (initState defaultCfg emptyStore)).displayVolume
        = (setVolume defaultCfg (JNum.num (1/2)) (initState defaultCfg emptyStore)).volume := by
  have h0 : VolFloor (initState defaultCfg emptyStore) := by
    refine ⟨1, rfl, by norm_num [MIN_FADE_IN_VOLUME]⟩
  have hcl : jsMax (JNum.num 0) (jsMin (JNum.num 1) (JNum.num (1/2)))
      = JNum.num (1/2) := by
    simp [jsMax, jsMin]
    norm_num [min_def, max_def]
  have hguard : ∃ q : ℚ, jsMax (JNum.num 0) (jsMin (JNum.num 1) (JNum.num (1/2)))
      = JNum.num q ∧ MIN_FADE_IN_VOLUME ≤ q :=
    ⟨1/2, hcl, by norm_num [MIN_FADE_IN_VOLUME]⟩
  have hnf : (setVolume defaultCfg (JNum.num (1/2)) (initState defaultCfg emptyStore)).isFadingIn
      = false := by
    have h := (setVolume_fields defaultCfg (JNum.num (1/2))
      (initState defaultCfg emptyStore) (1/2) hcl).2.2.2.1
    rw [h]
    rfl
  refine ⟨h0, hnf, ?_⟩
  exact c1_display_volume_inv defaultCfg emptyStore _ h0
    (Relation.ReflTransGen.single (GStep.stepSetVolume _ (JNum.num (1/2)) hguard)) hnf

/-- Claim C10: pause() mutates no field of the playback state — song,
times, volumes and the fading flag keep their pre-call values (also
mid-fade) and isPlaying is untouched; pause only clears the fade timer and
asks the source to stop, and isPlaying is cleared only by the source pause
event callback. -/
theorem c10_pause_frame (s : PlayerState) :
    (pause s).currentSong = s.currentSong
    ∧ (pause s).currentTime = s.currentTime
    ∧ (pause s).duration = s.duration
    ∧ (pause s).volume = s.volume
    ∧ (pause s).displayVolume = s.displayVolume
    ∧ (pause s).isFadingIn = s.isFadingIn
    ∧ (pause s).isPlaying = s.isPlaying
    ∧ (pause s).fadeTimer = none
    ∧ (pause s).audioPaused = true
    ∧ (handlePauseEvt s).isPlaying = false :=
  ⟨rfl, rfl, rfl, rfl, rfl, rfl, rfl, rfl, rfl, rfl⟩

/-- Claim C5: when the source rejects the start request, play completes
with no broadcast published, no onPlay callback invoked, no fade ramp
started (the timer ends cleared and the fading flag and displayVolume are
untouched), and isPlaying untouched. -/
theorem c5_denied_play (cfg : Config) (song : Song) (s : PlayerState) :
    (play cfg song false s).broadcasts = s.broadcasts
    ∧ (play cfg song false s).onPlayLog = s.onPlayLog
    ∧ (play cfg song false s).fadeTimer = none
    ∧ (play cfg song false s).isFadingIn = s.isFadingIn
    ∧ (play cfg song false s).displayVolume = s.displayVolume
    ∧ (play cfg song false s).isPlaying = s.isPlaying := by
  simp only [play, clearFade, Bool.false_eq_true, if_false]
  split <;> split <;> simp

/-- A mid-fade state used by C3: a running fade with displayVolume 0 and
volume 1. -/
def c3FadeState : PlayerState :=
  fadeInVolume defaultCfg (JNum.num 1) (initState defaultCfg emptyStore)

/-- Claim C3 is false on the code at v = NaN: the clamp expression
Math.max(0, Math.min(1, NaN)) is NaN, and assigning it to the element
volume (a WebIDL double) throws a TypeError that propagates out of
setVolume; invoked during a fade, the aborted call has already cleared
isFadingIn, so it leaves displayVolume (0 here) different from volume
(1) — the invalid input propagates as an error and the state is left
mutated, contradicting the claim. -/
theorem c3_setVolume_nan_cex :
    setVolumeThrows JNum.nan = true
    ∧ c3FadeState.isFadingIn = true
    ∧ (setVolume defaultCfg JNum.nan c3FadeState).isFadingIn = false
    ∧ (setVolume defaultCfg JNum.nan c3FadeState).volume = JNum.num 1
    ∧ (setVolume defaultCfg JNum.nan c3FadeState).displayVolume = JNum.num 0
    ∧ (setVolume defaultCfg JNum.nan c3FadeState).displayVolume
        ≠ (setVolume defaultCfg JNum.nan c3FadeState).volume := by
  obtain ⟨n1, n2, _, _, n5, n6⟩ :=
    setVolume_nan_fields defaultCfg JNum.nan c3FadeState rfl
  have hsome : c3FadeState.fadeTimer.isSome = true := rfl
  have hvol : c3FadeState.volume = JNum.num 1 := rfl
  have hdisp : c3FadeState.displayVolume = JNum.num 0 := rfl
  have hifi : (setVolume defaultCfg JNum.nan c3FadeState).isFadingIn = false := by
    rw [n5, if_pos hsome]
  refine ⟨n6, rfl, hifi, ?_, ?_, ?_⟩
  · rw [n1, hvol]
  · rw [n2, hdisp]
  · rw [n1, hvol, n2, hdisp]
    intro hcontra
    have : (0 : ℚ) = 1 := by injection hcontra
    norm_num at this

/-- Claim C3 (amended): for every ordinary (non-NaN) numeric input q,
setVolume(q) sets volume and displayVolume to clamp(q,0,1) without
throwing, always leaves the fade timer cleared, and clears isFadingIn
whenever a fade interval was running; setVolume(NaN) instead throws a
TypeError at the element volume assignment (the clamp propagates NaN and
the setter takes a WebIDL double), aborting the call after the fade-flag
clear with volume, displayVolume and the persisted store unchanged. -/
theorem c3_setVolume_clamps (cfg : Config) (s : PlayerState) (q : ℚ) :
    ((setVolume cfg (JNum.num q) s).volume = JNum.num (max 0 (min 1 q))
      ∧ (setVolume cfg (JNum.num q) s).displayVolume = JNum.num (max 0 (min 1 q))
      ∧ (setVolume cfg (JNum.num q) s).fadeTimer = none
      ∧ (s.fadeTimer.isSome = true → (setVolume cfg (JNum.num q) s).isFadingIn = false)
      ∧ setVolumeThrows (JNum.num q) = false)
    ∧ (setVolumeThrows JNum.nan = true
      ∧ (setVolume cfg JNum.nan s).volume = s.volume
      ∧ (setVolume cfg JNum.nan s).displayVolume = s.displayVolume
      ∧ (setVolume cfg JNum.nan s).store = s.store
      ∧ (s.fadeTimer.isSome = true → (setVolume cfg JNum.nan s).isFadingIn = false)) := by
  obtain ⟨f1, f2, f3, f4, _⟩ := setVolume_fields cfg (JNum.num q) s (max 0 (min 1 q)) rfl
  obtain ⟨n1, n2, n3, _, n5, n6⟩ := setVolume_nan_fields cfg JNum.nan s rfl
  refine ⟨⟨f1, f2, f3, ?_, rfl⟩, n6, n1, n2, n3, ?_⟩
  · intro h; rw [f4, if_pos h]
  · intro h; rw [n5, if_pos h]

/-- Witness for the amended C3 on the mid-fade state: setVolume(1.5)
clamps to 1 and clears the fading flag, and setVolume(NaN) leaves the
volume untouched. -/
theorem c3_setVolume_clamps_witness :
    c3FadeState.fadeTimer.isSome = true
    ∧ (setVolume defaultCfg (JNum.num (3/2)) c3FadeState).volume
        = JNum.num (max 0 (min 1 (3/2)))
    ∧ (setVolume defaultCfg (JNum.num (3/2)) c3FadeState).isFadingIn = false
    ∧ (setVolume defaultCfg JNum.nan c3FadeState).volume = c3FadeState.volume := by
  have hsome : c3FadeState.fadeTimer.isSome = true := rfl
  obtain ⟨⟨f1, _, _, f4, _⟩, _, n2, _, _, _⟩ :=
    c3_setVolume_clamps defaultCfg c3FadeState (3/2)
  exact ⟨hsome, f1, f4 hsome, n2⟩

/-- The C6 refutation state: seek(-5) on a session whose source has
duration 180. -/
def c6State : PlayerState :=
  seek (-5) (handleLoadedMetadataEvt 180 (initState defaultCfg emptyStore))

/-- Claim C6 is false on the code: seek(-5) writes the raw -5 into the
state currentTime (outside [0, duration]); only the source position is
clamped (to 0 here). -/
theorem c6_seek_cex :
    c6State.currentTime = -5
    ∧ ¬ (0 ≤ c6State.currentTime)
    ∧ c6State.audioTime = 0
    ∧ c6State.duration = 180 := by
  refine ⟨rfl, ?_, ?_, rfl⟩
  · have h : c6State.currentTime = (-5 : ℚ) := rfl
    rw [h]; norm_num
  · have h : c6State.audioTime = max 0 (min (-5) (180 : ℚ)) := rfl
    rw [h]; norm_num [min_def, max_def]

/-- Claim C6 (amended): seek(t) clamps the source position into
[0, source duration] but sets the state currentTime synchronously to the
raw argument t, unclamped. -/
theorem c6_seek_clamps (s : PlayerState) (t : ℚ) (hd : 0 ≤ s.audioDuration) :
    (seek t s).currentTime = t
    ∧ (seek t s).audioTime = max 0 (min t s.audioDuration)
    ∧ 0 ≤ (seek t s).audioTime
    ∧ (seek t s).audioTime ≤ s.audioDuration := by
  refine ⟨rfl, rfl, le_max_left 0 _, ?_⟩
  show max 0 (min t s.audioDuration) ≤ s.audioDuration
  exact max_le hd (min_le_right t s.audioDuration)

/-- Witness for the amended C6 at t = -5 on a source with duration 180. -/
theorem c6_seek_clamps_witness :
    (0 : ℚ) ≤ (handleLoadedMetadataEvt 180 (initState defaultCfg emptyStore)).audioDuration
    ∧ (seek (-5) (handleLoadedMetadataEvt 180 (initState defaultCfg emptyStore))).currentTime = -5
    ∧ 0 ≤ (seek (-5) (handleLoadedMetadataEvt 180 (initState defaultCfg emptyStore))).audioTime := by
  have hd : (0 : ℚ) ≤ (handleLoadedMetadataEvt 180 (initState defaultCfg emptyStore)).audioDuration := by
    have h : (handleLoadedMetadataEvt 180 (initState defaultCfg emptyStore)).audioDuration
        = (180 : ℚ) := rfl
    rw [h]; norm_num
  obtain ⟨g1, _, g3, _⟩ :=
    c6_seek_clamps (handleLoadedMetadataEvt 180 (initState defaultCfg emptyStore)) (-5) hd
  exact ⟨hd, g1, g3⟩

/-- The element volume set by play when fading is disabled. -/
lemma play_audioVolume_nofade (cfg : Config) (song : Song) (success : Bool)
    (s : PlayerState) (hf : cfg.fadeInEnabled = false) :
    (play cfg song success s).audioVolume
      = jsMax s.volume (JNum.num MIN_FADE_IN_VOLUME) := by
  simp only [play, clearFade, hf, Bool.false_eq_true, if_false]
  cases success <;> simp <;> split <;> simp

/-- The C8 refutation state: setVolume(0.05), then a successful play on a
session with the fade disabled, with the source play event delivered. -/
def c8State : PlayerState :=
  handlePlayEvt (play noFadeCfg songX true
    (setVolume noFadeCfg (JNum.num (1/20)) (initState noFadeCfg emptyStore)))

/-- Claim C8 is false on the code: with the fade disabled and volume 0.05,
a successful play leaves the state displayVolume at 0.05, not at
max(volume, MIN_FADE_IN_VOLUME) = 0.1 — only the element output volume is
raised to the floor; the state field is never written on this path. -/
theorem c8_nofade_play_cex :
    c8State.isPlaying = true
    ∧ c8State.volume = JNum.num (1/20)
    ∧ c8State.displayVolume = JNum.num (1/20)
    ∧ c8State.displayVolume ≠ jsMax c8State.volume (JNum.num MIN_FADE_IN_VOLUME) := by
  have hsv1 := (setVolume_fields noFadeCfg (JNum.num (1/20))
    (initState noFadeCfg emptyStore) (1/20) clamp_small).1
  have hsv2 := (setVolume_fields noFadeCfg (JNum.num (1/20))
    (initState noFadeCfg emptyStore) (1/20) clamp_small).2.1
  obtain ⟨p1, p2, _, _⟩ := play_fields_other noFadeCfg songX true
    (setVolume noFadeCfg (JNum.num (1/20)) (initState noFadeCfg emptyStore)) (Or.inr rfl)
  have hvol : c8State.volume = JNum.num (1/20) := by
    unfold c8State
    show (play noFadeCfg songX true
      (setVolume noFadeCfg (JNum.num (1/20)) (initState noFadeCfg emptyStore))).volume
        = JNum.num (1/20)
    rw [p1, hsv1]
  have hdisp : c8State.displayVolume = JNum.num (1/20) := by
    unfold c8State
    show (play noFadeCfg songX true
      (setVolume noFadeCfg (JNum.num (1/20)) (initState noFadeCfg emptyStore))).displayVolume
        = JNum.num (1/20)
    rw [p2, hsv2]
  refine ⟨rfl, hvol, hdisp, ?_⟩
  rw [hvol, hdisp]
  have hm : jsMax (JNum.num (1/20)) (JNum.num MIN_FADE_IN_VOLUME) = JNum.num (1/10) := by
    simp [jsMax, MIN_FADE_IN_VOLUME]
    norm_num [max_def]
  rw [hm]
  intro hcontra
  have : (1/20 : ℚ) = 1/10 := by injection hcontra
  norm_num at this

/-- Claim C8 (amended): with the fade disabled, from any state satisfying
the no-fade session invariant displayVolume = volume and isFadingIn =
false, a successful play delivers isPlaying = true, raises the element
output volume to max(volume, MIN_FADE_IN_VOLUME), leaves the state
displayVolume equal to volume, and starts no ramp. -/
theorem c8_nofade_play (cfg : Config) (song : Song) (s : PlayerState)
    (hf : cfg.fadeInEnabled = false) (heq : s.displayVolume = s.volume)
    (hnf : s.isFadingIn = false) :
    (handlePlayEvt (play cfg song true s)).isPlaying = true
    ∧ (handlePlayEvt (play cfg song true s)).audioVolume
        = jsMax s.volume (JNum.num MIN_FADE_IN_VOLUME)
    ∧ (handlePlayEvt (play cfg song true s)).displayVolume = s.volume
    ∧ (handlePlayEvt (play cfg song true s)).isFadingIn = false
    ∧ (handlePlayEvt (play cfg song true s)).fadeTimer = none := by
  obtain ⟨p1, p2, p3, p4⟩ := play_fields_other cfg song true s (Or.inr hf)
  have hav := play_audioVolume_nofade cfg song true s hf
  refine ⟨rfl, ?_, ?_, ?_, ?_⟩
  · show (play cfg song true s).audioVolume = jsMax s.volume (JNum.num MIN_FADE_IN_VOLUME)
    exact hav
  · show (play cfg song true s).displayVolume = s.volume
    rw [p2, heq]
  · show (play cfg song true s).isFadingIn = false
    rw [p3, hnf]
  · show (play cfg song true s).fadeTimer = none
    exact p4

/-- Witness for the amended C8 on a fresh default-volume session with the
fade disabled. -/
theorem c8_nofade_play_witness :
    noFadeCfg.fadeInEnabled = false
    ∧ (initState noFadeCfg emptyStore).displayVolume = (initState noFadeCfg emptyStore).volume
    ∧ (initState noFadeCfg emptyStore).isFadingIn = false
    ∧ (handlePlayEvt (play noFadeCfg songX true (initState noFadeCfg emptyStore))).isPlaying = true
    ∧ (handlePlayEvt (play noFadeCfg songX true (initState noFadeCfg emptyStore))).displayVolume
        = (initState noFadeCfg emptyStore).volume := by
  obtain ⟨g1, _, g3, _, _⟩ := c8_nofade_play noFadeCfg songX
    (initState noFadeCfg emptyStore) rfl rfl rfl
  exact ⟨rfl, rfl, rfl, g1, g3⟩

lemma initState_stored_num (cfg : Config) (store0 : String → Option StoredStr) (q : ℚ)
    (hp : cfg.persistVolume = true)
    (hkey : store0 cfg.storageKey = some (StoredStr.numStr q))
    (h0 : 0 ≤ q) (h1 : q ≤ 1) :
    (initState cfg store0).volume = JNum.num q
    ∧ (initState cfg store0).displayVolume = JNum.num q := by
  unfold initState
  rw [hp]
  simp only [if_true, hkey, parseFloatStored]
  rw [if_pos ⟨h0, h1⟩]
  exact ⟨rfl, rfl⟩

lemma initState_stored_bad (cfg : Config) (store0 : String → Option StoredStr)
    (hp : cfg.persistVolume = true)
    (hkey : store0 cfg.storageKey = some StoredStr.nonNum) :
    (initState cfg store0).volume = JNum.num cfg.defaultVolume := by
  unfold initState
  rw [hp]
  simp only [if_true, hkey, parseFloatStored]

lemma initState_stored_out (cfg : Config) (store0 : String → Option StoredStr) (q : ℚ)
    (hp : cfg.persistVolume = true)
    (hkey : store0 cfg.storageKey = some (StoredStr.numStr q))
    (hq : ¬ (0 ≤ q ∧ q ≤ 1)) :
    (initState cfg store0).volume = JNum.num cfg.defaultVolume := by
  unfold initState
  rw [hp]
  simp only [if_true, hkey, parseFloatStored]
  rw [if_neg hq]

/-- A stored string is adopted at construction exactly when it parses to
a float lying in [0,1]. -/
def storedAccepted : StoredStr → Prop
  | StoredStr.numStr q => 0 ≤ q ∧ q ≤ 1
  | StoredStr.nonNum => False

/-- Claim C9: for v in [0,1], setVolume(v) with persistence enabled
followed by a fresh construction over the resulting storage and the same
key restores volume (and displayVolume) to v; a stored string that does
not parse to a float in [0,1] — whether it fails to parse or parses to a
value outside [0,1] — yields the configured default. -/
theorem c9_volume_roundtrip (cfg : Config) (s : PlayerState) (v : ℚ)
    (hp : cfg.persistVolume = true) (h0 : 0 ≤ v) (h1 : v ≤ 1) :
    (initState cfg (setVolume cfg (JNum.num v) s).store).volume = JNum.num v
    ∧ (initState cfg (setVolume cfg (JNum.num v) s).store).displayVolume = JNum.num v
    ∧ ∀ (store0 : String → Option StoredStr) (sv : StoredStr),
        store0 cfg.storageKey = some sv → ¬ storedAccepted sv →
        (initState cfg store0).volume = JNum.num cfg.defaultVolume := by
  have hclamp : jsMax (JNum.num 0) (jsMin (JNum.num 1) (JNum.num v)) = JNum.num v := by
    simp only [jsMin, jsMax]
    rw [min_eq_right h1, max_eq_right h0]
  have hkey : (setVolume cfg (JNum.num v) s).store cfg.storageKey
      = some (StoredStr.numStr v) := by
    rw [setVolume_store cfg (JNum.num v) s hp v hclamp]
    simp
  obtain ⟨r1, r2⟩ := initState_stored_num cfg (setVolume cfg (JNum.num v) s).store v hp hkey h0 h1
  refine ⟨r1, r2, ?_⟩
  intro store0 sv hkey0 hbad
  cases sv with
  | numStr q =>
    exact initState_stored_out cfg store0 q hp hkey0 (by simpa [storedAccepted] using hbad)
  | nonNum =>
    exact initState_stored_bad cfg store0 hp hkey0

/-- Witness for C9: the round trip at v = 0.42, the non-parsing-store
fallback, and the out-of-range-store fallback (stored 1.5) to the
default volume 1. -/
theorem c9_volume_roundtrip_witness :
    defaultCfg.persistVolume = true ∧ (0 : ℚ) ≤ 21/50 ∧ (21/50 : ℚ) ≤ 1
    ∧ (initState defaultCfg
        (setVolume defaultCfg (JNum.num (21/50)) (initState defaultCfg emptyStore)).store).volume
        = JNum.num (21/50)
    ∧ (initState defaultCfg (fun _ => some StoredStr.nonNum)).volume
        = JNum.num defaultCfg.defaultVolume
    ∧ (initState defaultCfg (fun _ => some (StoredStr.numStr (3/2)))).volume
        = JNum.num defaultCfg.defaultVolume := by
  obtain ⟨r1, _, r3⟩ := c9_volume_roundtrip defaultCfg (initState defaultCfg emptyStore) (21/50)
    rfl (by norm_num) (by norm_num)
  refine ⟨rfl, by norm_num, by norm_num, r1, ?_, ?_⟩
  · exact r3 (fun _ => some StoredStr.nonNum) StoredStr.nonNum rfl (by simp [storedAccepted])
  · exact r3 (fun _ => some (StoredStr.numStr (3/2))) (StoredStr.numStr (3/2)) rfl
      (by norm_num [storedAccepted])

lemma deliverEvt_other (detail : String) (w : Standalone) (h : detail ≠ w.songId) :
    deliverEvt detail w = { w with laPaused := true, localIsPlaying := false } := by
  unfold deliverEvt
  rw [if_pos h]

lemma deliverEvt_self (detail : String) (w : Standalone) (h : detail = w.songId) :
    deliverEvt detail w = w := by
  unfold deliverEvt
  rw [if_neg (by simp [h])]

lemma startLocal_fields (w : Standalone) :
    (startLocal w).localIsPlaying = true
    ∧ (startLocal w).laPaused = false
    ∧ (startLocal w).laVolume = w.laVolume
    ∧ (startLocal w).songId = w.songId := by
  unfold startLocal
  split <;> exact ⟨rfl, rfl, rfl, rfl⟩

/-- Claim C2: two standalone instances A and B with distinct track ids,
both initially silent; A starts, then B starts and the broadcast is
delivered synchronously: A ends not playing (its element paused), B ends
playing, and the self-pause leaves the element volume of A and the
persisted store untouched. -/
theorem c2_mutual_exclusion (w : World) (hids : w.a.songId ≠ w.b.songId)
    (ha : w.a.localIsPlaying = false) (_hb : w.b.localIsPlaying = false) :
    (clickB (clickA w)).a.localIsPlaying = false
    ∧ (clickB (clickA w)).a.laPaused = true
    ∧ (clickB (clickA w)).b.localIsPlaying = true
    ∧ (clickB (clickA w)).a.laVolume = w.a.laVolume
    ∧ (clickB (clickA w)).store = w.store := by
  have hba : w.b.songId ≠ w.a.songId := Ne.symm hids
  have hca : clickA w =
      { w with a := startLocal (deliverEvt w.a.songId w.a), b := deliverEvt w.a.songId w.b } := by
    unfold clickA
    rw [if_neg (by simp [ha])]
  have hb1 : (clickA w).b.localIsPlaying = false := by
    rw [hca]
    show (deliverEvt w.a.songId w.b).localIsPlaying = false
    rw [deliverEvt_other w.a.songId w.b hids]
  have hcb : clickB (clickA w) =
      { clickA w with
          b := startLocal (deliverEvt (clickA w).b.songId (clickA w).b),
          a := deliverEvt (clickA w).b.songId (clickA w).a } := by
    unfold clickB
    rw [if_neg (by simp [hb1])]
  have hbsong : (clickA w).b.songId = w.b.songId := by
    rw [hca]
    show (deliverEvt w.a.songId w.b).songId = w.b.songId
    rw [deliverEvt_other w.a.songId w.b hids]
  have hasong : (clickA w).a.songId = w.a.songId := by
    rw [hca]
    show (startLocal (deliverEvt w.a.songId w.a)).songId = w.a.songId
    rw [deliverEvt_self w.a.songId w.a rfl]
    exact (startLocal_fields w.a).2.2.2
  have hdelA : deliverEvt (clickA w).b.songId (clickA w).a =
      { (clickA w).a with laPaused := true, localIsPlaying := false } := by
    apply deliverEvt_other
    rw [hbsong, hasong]
    exact hba
  refine ⟨?_, ?_, ?_, ?_, ?_⟩
  · rw [hcb]
    show (deliverEvt (clickA w).b.songId (clickA w).a).localIsPlaying = false
    rw [hdelA]
  · rw [hcb]
    show (deliverEvt (clickA w).b.songId (clickA w).a).laPaused = true
    rw [hdelA]
  · rw [hcb]
    show (startLocal (deliverEvt (clickA w).b.songId (clickA w).b)).localIsPlaying = true
    exact (startLocal_fields _).1
  · rw [hcb]
    show (deliverEvt (clickA w).b.songId (clickA w).a).laVolume = w.a.laVolume
    rw [hdelA]
    show (clickA w).a.laVolume = w.a.laVolume
    rw [hca]
    show (startLocal (deliverEvt w.a.songId w.a)).laVolume = w.a.laVolume
    rw [deliverEvt_self w.a.songId w.a rfl]
    exact (startLocal_fields w.a).2.2.1
  · rw [hcb]
    show (clickA w).store = w.store
    rw [hca]

/-- A concrete world of two silent standalone instances for the C2
witness. -/
def cexWorld : World :=
  { a := { songId := "x", audioUrl := "ux", localIsPlaying := false,
           laSrc := "", laPaused := true, laVolume := 1 },
    b := { songId := "y", audioUrl := "uy", localIsPlaying := false,
           laSrc := "", laPaused := true, laVolume := 1 },
    store := emptyStore }

/-- Witness for C2 on the concrete two-instance world. -/
theorem c2_mutual_exclusion_witness :
    cexWorld.a.songId ≠ cexWorld.b.songId
    ∧ (clickB (clickA cexWorld)).a.localIsPlaying = false
    ∧ (clickB (clickA cexWorld)).b.localIsPlaying = true
    ∧ (clickB (clickA cexWorld)).a.laVolume = cexWorld.a.laVolume := by
  have hids : cexWorld.a.songId ≠ cexWorld.b.songId := by decide
  obtain ⟨g1, _, g3, g4, _⟩ := c2_mutual_exclusion cexWorld hids rfl rfl
  exact ⟨hids, g1, g3, g4⟩

/-- Claim C4: with the fade enabled, a successful play installs a fade to
target = max(volume, MIN_FADE_IN_VOLUME) with exactly FADE_STEPS = 30
steps, per-step interval fadeInDuration/30 and per-step increment
target/30, starting from displayVolume 0; after k ticks (k ≤ 30) the
displayed output is min(target/30 * k, target), the sequence is
monotonically non-decreasing and never exceeds the target, and the 30th
tick sets displayVolume exactly to the target, clears isFadingIn and
clears the timer. -/
theorem c4_fade_ramp (cfg : Config) (song : Song) (s : PlayerState) (v : ℚ)
    (hf : cfg.fadeInEnabled = true) (hv : s.volume = JNum.num v) (hv0 : 0 ≤ v) :
    (play cfg song true s).fadeTimer =
      some ⟨JNum.num (max v MIN_FADE_IN_VOLUME),
            JNum.num (max v MIN_FADE_IN_VOLUME / 30),
            cfg.fadeInDuration / 30, 0⟩
    ∧ (play cfg song true s).displayVolume = JNum.num 0
    ∧ (∀ k : Nat, k ≤ 30 →
        (fadeTicks k (play cfg song true s)).displayVolume
          = JNum.num (min (max v MIN_FADE_IN_VOLUME / 30 * k) (max v MIN_FADE_IN_VOLUME)))
    ∧ (∀ j k : Nat, j ≤ k →
        min (max v MIN_FADE_IN_VOLUME / 30 * j) (max v MIN_FADE_IN_VOLUME)
          ≤ min (max v MIN_FADE_IN_VOLUME / 30 * k) (max v MIN_FADE_IN_VOLUME))
    ∧ (∀ k : Nat, min (max v MIN_FADE_IN_VOLUME / 30 * k) (max v MIN_FADE_IN_VOLUME)
          ≤ max v MIN_FADE_IN_VOLUME)
    ∧ (fadeTicks 30 (play cfg song true s)).displayVolume
        = JNum.num (max v MIN_FADE_IN_VOLUME)
    ∧ (fadeTicks 30 (play cfg song true s)).isFadingIn = false
    ∧ (fadeTicks 30 (play cfg song true s)).fadeTimer = none := by
  have ht0 : (0 : ℚ) ≤ max v MIN_FADE_IN_VOLUME := le_trans hv0 (le_max_left v _)
  obtain ⟨f1, f2, f3, f4⟩ := play_fields_fade cfg song s hf
  have hmaxv : jsMax s.volume (JNum.num MIN_FADE_IN_VOLUME)
      = JNum.num (max v MIN_FADE_IN_VOLUME) := by
    rw [hv]; simp [jsMax]
  have hcast : ((FADE_STEPS : Nat) : ℚ) = 30 := by norm_num [FADE_STEPS]
  have htimer : (play cfg song true s).fadeTimer =
      some ⟨JNum.num (max v MIN_FADE_IN_VOLUME),
            JNum.num (max v MIN_FADE_IN_VOLUME / 30),
            cfg.fadeInDuration / 30, 0⟩ := by
    rw [f4, hmaxv]
    simp [jsDiv, hcast]
  obtain ⟨hrun30, _, hfin⟩ :=
    fadeTicks_run (max v MIN_FADE_IN_VOLUME) (cfg.fadeInDuration / 30) 30
      (play cfg song true s) htimer (by omega) (le_refl 30)
  obtain ⟨ht30, hff30, hd30⟩ := hfin rfl
  refine ⟨htimer, f2, ?_, ?_, ?_, hd30, hff30, ht30⟩
  · intro k hk
    rcases Nat.eq_zero_or_pos k with hk0 | hk1
    · subst hk0
      show (play cfg song true s).displayVolume = _
      rw [f2]
      have : min (max v MIN_FADE_IN_VOLUME / 30 * ((0 : Nat) : ℚ)) (max v MIN_FADE_IN_VOLUME)
          = 0 := by
        simp [min_eq_left ht0]
      rw [this]
    · obtain ⟨hd, _, _⟩ :=
        fadeTicks_run (max v MIN_FADE_IN_VOLUME) (cfg.fadeInDuration / 30) k
          (play cfg song true s) htimer hk1 hk
      exact hd
  · intro j k hjk
    apply min_le_min _ (le_refl _)
    apply mul_le_mul_of_nonneg_left (by exact_mod_cast hjk)
    positivity
  · intro k
    exact min_le_right _ _

/-- Witness for C4: from a fresh default session (volume 1), the 30th
tick of the fade started by a successful play lands displayVolume exactly
on max(1, MIN_FADE_IN_VOLUME). -/
theorem c4_fade_ramp_witness :
    defaultCfg.fadeInEnabled = true
    ∧ (initState defaultCfg emptyStore).volume = JNum.num 1
    ∧ (0 : ℚ) ≤ 1
    ∧ (fadeTicks 30 (play defaultCfg songX true (initState defaultCfg emptyStore))).displayVolume
        = JNum.num (max 1 MIN_FADE_IN_VOLUME)
    ∧ (fadeTicks 30 (play defaultCfg songX true (initState defaultCfg emptyStore))).isFadingIn
        = false := by
  obtain ⟨_, _, _, _, _, g6, g7, _⟩ := c4_fade_ramp defaultCfg songX
    (initState defaultCfg emptyStore) 1 rfl rfl (by norm_num)
  exact ⟨rfl, rfl, by norm_num, g6, g7⟩

/-- Claim C7: with the fade enabled, from a playing state whose
displayVolume has settled at max(volume, MIN_FADE_IN_VOLUME), togglePlay
(pause, with the source pause event delivered) followed by togglePlay
(successful resume) and a settled resume fade leaves displayVolume equal
to its value before the pause. -/
theorem c7_pause_resume (cfg : Config) (s : PlayerState) (song : Song) (v : ℚ)
    (hf : cfg.fadeInEnabled = true) (hsong : s.currentSong = some song)
    (hplay : s.isPlaying = true) (hv : s.volume = JNum.num v)
    (hdisp : s.displayVolume = JNum.num (max v MIN_FADE_IN_VOLUME)) :
    (fadeTicks 30 (togglePlay cfg true (handlePauseEvt (togglePlay cfg true s)))).displayVolume
      = s.displayVolume := by
  rw [togglePlay_pause cfg true s song hsong hplay]
  have hsong2 : (handlePauseEvt (pause s)).currentSong = some song := hsong
  have hplay2 : (handlePauseEvt (pause s)).isPlaying = false := rfl
  have hv2 : (handlePauseEvt (pause s)).volume = JNum.num v := hv
  obtain ⟨g1, g2, g3, g4⟩ :=
    togglePlay_fields_fade cfg (handlePauseEvt (pause s)) song hsong2 hplay2 hf
  have hcast : ((FADE_STEPS : Nat) : ℚ) = 30 := by norm_num [FADE_STEPS]
  have htimer : (togglePlay cfg true (handlePauseEvt (pause s))).fadeTimer =
      some ⟨JNum.num (max v MIN_FADE_IN_VOLUME),
            JNum.num (max v MIN_FADE_IN_VOLUME / 30),
            cfg.fadeInDuration / 30, 0⟩ := by
    rw [g4, hv2]
    simp [jsMax, jsDiv, hcast]
  obtain ⟨_, _, hfin⟩ :=
    fadeTicks_run (max v MIN_FADE_IN_VOLUME) (cfg.fadeInDuration / 30) 30
      (togglePlay cfg true (handlePauseEvt (pause s))) htimer (by omega) (le_refl 30)
  obtain ⟨_, _, hd30⟩ := hfin rfl
  rw [hd30, hdisp]

/-- A session configured with default volume 0.8, for the C7 witness. -/
def cfg08 : Config :=
  { fadeInEnabled := true, fadeInDuration := 3000, persistVolume := true,
    storageKey := "audioPlayerVolume", defaultVolume := 4/5 }

/-- The C7 witness base state: a successful play from a fresh 0.8-volume
session. -/
def c7Base : PlayerState := play cfg08 songX true (initState cfg08 emptyStore)

/-- The C7 witness ready state: the play fade has settled and the source
play event was delivered. -/
def c7Ready : PlayerState := handlePlayEvt (fadeTicks 30 c7Base)

lemma c7Base_timer :
    c7Base.fadeTimer = some ⟨JNum.num (4/5), JNum.num ((4/5) / 30), 100, 0⟩ := by
  have h := (play_fields_fade cfg08 songX (initState cfg08 emptyStore) rfl).2.2.2
  have hv : (initState cfg08 emptyStore).volume = JNum.num (4/5) := rfl
  unfold c7Base
  rw [h, hv]
  have hm : jsMax (JNum.num (4/5)) (JNum.num MIN_FADE_IN_VOLUME) = JNum.num (4/5) := by
    simp [jsMax, MIN_FADE_IN_VOLUME]
    norm_num [max_def]
  rw [hm]
  simp [jsDiv, FADE_STEPS, cfg08]
  norm_num

lemma handlePlayEvt_currentSong (s : PlayerState) :
    (handlePlayEvt s).currentSong = s.currentSong := rfl

lemma handlePlayEvt_isPlaying (s : PlayerState) :
    (handlePlayEvt s).isPlaying = true := rfl

lemma handlePlayEvt_volume (s : PlayerState) :
    (handlePlayEvt s).volume = s.volume := rfl

lemma handlePlayEvt_displayVolume (s : PlayerState) :
    (handlePlayEvt s).displayVolume = s.displayVolume := rfl

lemma c7Ready_facts :
    c7Ready.currentSong = some songX
    ∧ c7Ready.isPlaying = true
    ∧ c7Ready.volume = JNum.num (4/5)
    ∧ c7Ready.displayVolume = JNum.num (4/5) := by
  obtain ⟨_, _, hfin⟩ :=
    fadeTicks_run (4/5) 100 30 c7Base c7Base_timer (by omega) (le_refl 30)
  obtain ⟨_, _, hd30⟩ := hfin rfl
  have hsong : c7Base.currentSong = some songX := rfl
  unfold c7Ready
  refine ⟨?_, ?_, ?_, ?_⟩
  · rw [handlePlayEvt_currentSong, fadeTicks_currentSong, hsong]
  · rw [handlePlayEvt_isPlaying]
  · rw [handlePlayEvt_volume, fadeTicks_volume]
    have h1 := (play_fields_fade cfg08 songX (initState cfg08 emptyStore) rfl).1
    unfold c7Base
    rw [h1]
    rfl
  · rw [handlePlayEvt_displayVolume]
    exact hd30

/-- Witness for C7: volume 0.8, play, settled fade, pause, resume,
settled resume fade — displayVolume ends at 0.8, its pre-pause value. -/
theorem c7_pause_resume_witness :
    c7Ready.displayVolume = JNum.num (4/5)
    ∧ (fadeTicks 30 (togglePlay cfg08 true (handlePauseEvt
        (togglePlay cfg08 true c7Ready)))).displayVolume = c7Ready.displayVolume := by
  obtain ⟨hsong, hplay, hvol, hdisp⟩ := c7Ready_facts
  have hdisp2 : c7Ready.displayVolume = JNum.num (max (4/5) MIN_FADE_IN_VOLUME) := by
    rw [hdisp]
    norm_num [MIN_FADE_IN_VOLUME, max_def]
  exact ⟨hdisp,
    c7_pause_resume cfg08 c7Ready songX (4/5) rfl hsong hplay hvol hdisp2⟩

end WSP
